import Mathlib

/-!
Shallow embedding of `src/handlers/player_handlers.py` from the
fantasy-football MCP repository, together with theorems settling the
frozen claims about it.

Modelling conventions:
* Python floats are modelled by `ℚ` (the arithmetic in the scoring
  pipeline is exact decimal arithmetic at this idealisation).
* Python `round(x, d)` is round-half-to-even, modelled exactly on `ℚ`.
* Python dicts that are serialized into the JSON response are modelled
  as association lists `List (String × PyVal)`, preserving insertion
  order, so that presence/absence of a key is expressible.
* `None`-able Python values are `Option`s; `getattr(p, f, default)` on a
  possibly-unset attribute is an `Option` field with `.getD default`.
* External providers (Yahoo API, Sleeper API) are parameters/oracles:
  the handlers' own logic is what is embedded.
-/

namespace FF

/-- A Python/JSON value as it appears in the serialized responses. -/
inductive PyVal where
  | pyNone : PyVal
  | pyStr : String → PyVal
  | pyNum : ℚ → PyVal
  | pyBool : Bool → PyVal
  | pyList : List PyVal → PyVal
  | pyDict : List (String × PyVal) → PyVal

open PyVal

/-- Dict lookup on a serialized record (first matching key, as in a
Python dict where keys are unique). -/
def getKey (r : List (String × PyVal)) (k : String) : Option PyVal :=
  (r.find? (fun kv => kv.1 == k)).map (fun kv => kv.2)

/-- `opt.getD`-style serialization: a possibly-absent numeric value. -/
def optNum (o : Option ℚ) : PyVal :=
  match o with
  | some q => pyNum q
  | none => pyNone

/-- A possibly-absent string value. -/
def optStr (o : Option String) : PyVal :=
  match o with
  | some s => pyStr s
  | none => pyNone

/-- Python `str.lower()`, modelled character by character (the names in
play are ASCII). -/
def pyLower (s : String) : String := String.mk (s.data.map Char.toLower)

/-- Python `x or d` for an optional string (`None` and `""` are falsy). -/
def pyOrStr (o : Option String) (d : String) : String :=
  match o with
  | some s => if s = "" then d else s
  | none => d

/-- Python truthiness of an optional string argument
(`not arguments.get(k)`): absent, `None`, and `""` are all falsy. -/
def pyFalsyStr (o : Option String) : Bool :=
  match o with
  | some s => s = ""
  | none => true

/-- Python `a or b` on optional string arguments
(`arguments.get("league_id") or arguments.get("league_key")`). -/
def pyOrOpt (a b : Option String) : Option String :=
  if pyFalsyStr a then b else a

/-! ## Exact decimal rounding (Python `round`) -/

/-- Python's `round` to an integer: round half to even, exactly on `ℚ`. -/
def roundHalfEven (q : ℚ) : ℤ :=
  let f := ⌊q⌋
  let frac := q - f
  if frac < 1/2 then f
  else if 1/2 < frac then f + 1
  else if f % 2 = 0 then f else f + 1

/-- Python `round(x, 1)`, exactly on `ℚ`. -/
def round1 (q : ℚ) : ℚ := (roundHalfEven (q * 10) : ℚ) / 10

/-- Python `round(x, 2)`, exactly on `ℚ` (models `_round_or_none` on a
present value). -/
def round2 (q : ℚ) : ℚ := (roundHalfEven (q * 100) : ℚ) / 100

/-! ## Basic player records and the name-keyed lookups

`basic_players` entries are the dicts returned by the Yahoo layer; the
handler only reads `name`, `position`, `owned_pct`, `weekly_change` and
`bye` from them, each of which may be missing. -/

/-- A basic (Yahoo-side) player dict, restricted to the keys the
handler reads. A missing key is `none`. -/
structure BPlayer where
  name : String
  position : Option String
  owned_pct : Option ℚ
  weekly_change : Option ℚ
  bye : Option String
  deriving DecidableEq, Repr

/-- Serialization of a basic player dict into the response (the handler
returns the dicts unchanged; only the keys that were present appear). -/
def bplayerToPy (b : BPlayer) : PyVal :=
  pyDict ([("name", pyStr b.name)]
    ++ (match b.position with | some s => [("position", pyStr s)] | none => [])
    ++ (match b.owned_pct with | some q => [("owned_pct", pyNum q)] | none => [])
    ++ (match b.weekly_change with | some q => [("weekly_change", pyNum q)] | none => [])
    ++ (match b.bye with | some s => [("bye", pyStr s)] | none => []))

/-- `next((p.get("owned_pct") or 0.0 for p in basic_players if
p.get("name", "").lower() == player.name.lower()), 0.0)`. -/
def lookupOwned (basic : List BPlayer) (nm : String) : ℚ :=
  match basic.find? (fun b => pyLower b.name == pyLower nm) with
  | some p => p.owned_pct.getD 0
  | none => 0

/-- `next((p.get("weekly_change") for p in basic_players if ...), 0)`:
a matching player with the key missing yields `None`, no match yields 0. -/
def lookupWeeklyChange (basic : List BPlayer) (nm : String) : PyVal :=
  match basic.find? (fun b => pyLower b.name == pyLower nm) with
  | some p => optNum p.weekly_change
  | none => pyNum 0

/-- `next((p.get("bye") for p in basic_players if ...), "N/A")`. -/
def lookupBye (basic : List BPlayer) (nm : String) : PyVal :=
  match basic.find? (fun b => pyLower b.name == pyLower nm) with
  | some p => optStr p.bye
  | none => pyStr "N/A"

/-! ## Trending data -/

/-- One entry of the Sleeper trending-adds list; the handler reads
`name`, `count` (default 0) and `position` (default `None`). -/
structure TrendEntry where
  name : String
  count : Option ℚ
  position : Option String
  deriving DecidableEq, Repr

/-- `trending_dict = {p["name"].lower(): p for p in trending}` followed
by membership/lookup of `player.name.lower()`: a dict comprehension
keeps the LAST entry for a repeated key, which the fold models. -/
def lookupTrend (trending : List TrendEntry) (nm : String) : Option TrendEntry :=
  trending.foldl
    (fun acc t => if pyLower t.name == pyLower nm then some t else acc) none

/-- The `trending_count` / `trending_position` keys merged into the
serialized player when the name matches the trending dict. -/
def trendFields (trending : List TrendEntry) (nm : String) : List (String × PyVal) :=
  match lookupTrend trending nm with
  | some t => [("trending_count", pyNum (t.count.getD 0)),
               ("trending_position", optStr t.position)]
  | none => []

/-! ## The enhanced player (lineup-optimizer `Player`) -/

/-- The fields of the optimizer `Player` object that
`serialize_waiver_player` and the analysis block read.  Attributes that
are set only on some paths (`status`, `injury_status`, `expert_*`) are
`Option`s; `getattr` defaults are applied at use sites, as in the code. -/
structure Player where
  name : String
  position : String
  team : String
  opponent : Option String
  status : Option String
  yahoo_projection : Option ℚ
  sleeper_projection : Option ℚ
  sleeper_id : Option String
  sleeper_match_method : Option String
  floor_projection : Option ℚ
  ceiling_projection : Option ℚ
  consistency_score : Option ℚ
  player_tier : Option String
  matchup_score : Option ℚ
  matchup_description : Option String
  trending_score : Option ℚ
  risk_level : Option String
  injury_status : Option String
  expert_tier : Option String
  expert_recommendation : Option String
  expert_confidence : Option ℚ
  expert_advice : Option String
  deriving DecidableEq, Repr

/-! ## Positional scarcity and the waiver scoring engine -/

/-- Group of basic players at a display position
(`p.get("position", "Unknown")`). -/
def positionGroup (basic : List BPlayer) (pos : String) : List BPlayer :=
  basic.filter (fun b => b.position.getD "Unknown" == pos)

/-- Average ownership of a position group
(`data["owned_sum"] / data["total"] if data["total"] > 0 else 0`,
with `p.get("owned_pct", 0.0)` summed). -/
def avgOwned (basic : List BPlayer) (pos : String) : ℚ :=
  let g := positionGroup basic pos
  if g.length = 0 then 0
  else (g.map (fun b => b.owned_pct.getD 0)).sum / g.length

/-- `scarcity_score = round(min(avg_owned / 10, 10), 1)` as stored in
the `position_scarcity` dict. -/
def scarcityScore (avg : ℚ) : ℚ := round1 (min (avg / 10) 10)

/-- `position_scarcity.get(player.position, {}).get("scarcity_score", 0)`:
0 when the position has no basic-player group. -/
def positionScarcityScore (basic : List BPlayer) (pos : String) : ℚ :=
  if (positionGroup basic pos).length = 0 then 0
  else scarcityScore (avgOwned basic pos)

/-- `scarcity_bonus = min(pos_scarcity * 0.5, 5)`. -/
def scarcityBonus (posScarcity : ℚ) : ℚ := min (posScarcity * (1/2)) 5

/-- `confidence_score = expert_confidence * 0.35`. -/
def confidenceScore (ec : ℚ) : ℚ := ec * (35/100)

/-- `projection_score = min(proj * 2, 30)`. -/
def projectionScore (proj : ℚ) : ℚ := min (proj * 2) 30

/-- `ownership_bonus = max(0, (50 - owned) * 0.4)`. -/
def ownershipBonus (owned : ℚ) : ℚ := max 0 ((50 - owned) * (2/5))

/-- `trending_bonus = min(trend_score * 1.5, 10)`. -/
def trendingBonus (trend : ℚ) : ℚ := min (trend * (3/2)) 10

/-- The waiver priority score exactly as the analysis block computes it
(before the 1-decimal rounding into `base["waiver_priority"]`). -/
def waiverPriority (ec proj trend owned posScarcity : ℚ) : ℚ :=
  confidenceScore ec + projectionScore proj + ownershipBonus owned
    + trendingBonus trend + scarcityBonus posScarcity

/-- `urgency_threshold = waiver_priority + (scarcity_bonus * 2)`. -/
def urgencyThreshold (wp sb : ℚ) : ℚ := wp + sb * 2

/-- The pickup-urgency classification cascade. -/
def pickupUrgency (u : ℚ) : String :=
  if 80 ≤ u then "MUST ADD - Elite waiver target"
  else if 65 ≤ u then "High Priority - Strong pickup"
  else if 50 ≤ u then "Moderate - Worth a claim"
  else if 35 ≤ u then "Low Priority - Depth option"
  else "Avoid - Better options available"

/-- The priority formula exactly as the SPEC states it (for refinement
comparison with `waiverPriority`): `0.35*expert_confidence +
min(2*total_projection,30) + max(0,(50-owned_pct)*0.4) +
min(1.5*trend_count,10) + min(0.5*position_scarcity,5)` with
`position_scarcity = min(avg_owned_in_position/10, 10)` (no rounding). -/
def specWaiverPriority (ec proj trend owned avg : ℚ) : ℚ :=
  (35/100) * ec + min (2 * proj) 30 + max 0 ((50 - owned) * (2/5))
    + min ((3/2) * trend) 10 + min ((1/2) * min (avg / 10) 10) 5

/-! ## Serialization of one waiver player -/

/-- `serialize_waiver_player`: the `base` dict literal in source order,
followed by the conditional trending merge.  Flags: `ip` =
`include_projections`, `ie` = `include_external_data`, `ia` =
`include_analysis`. -/
def serialize_waiver_player (ip ie ia : Bool) (basic : List BPlayer)
    (trending : List TrendEntry) (p : Player) : List (String × PyVal) :=
  [("name", pyStr p.name),
   ("position", pyStr p.position),
   ("team", pyStr p.team),
   ("opponent", pyStr (pyOrStr p.opponent "N/A")),
   ("status", pyStr (p.status.getD "Available")),
   ("yahoo_projection", if ip then optNum p.yahoo_projection else pyNone),
   ("sleeper_projection", if ip then optNum p.sleeper_projection else pyNone),
   ("sleeper_id", optStr p.sleeper_id),
   ("sleeper_match_method", optStr p.sleeper_match_method),
   ("floor_projection", if ip then optNum p.floor_projection else pyNone),
   ("ceiling_projection", if ip then optNum p.ceiling_projection else pyNone),
   ("consistency_score", optNum p.consistency_score),
   ("player_tier", optStr p.player_tier),
   ("matchup_score", if ie then optNum p.matchup_score else pyNone),
   ("matchup_description", if ie then optStr p.matchup_description else pyNone),
   ("trending_score", if ie then optNum p.trending_score else pyNone),
   ("risk_level", optStr p.risk_level),
   ("owned_pct", pyNum (lookupOwned basic p.name)),
   ("weekly_change", lookupWeeklyChange basic p.name),
   ("injury_status", pyStr (p.injury_status.getD "Healthy")),
   ("bye", lookupBye basic p.name),
   ("expert_tier", if ia then optStr p.expert_tier else pyNone),
   ("expert_recommendation", if ia then optStr p.expert_recommendation else pyNone),
   ("expert_confidence", if ia then optNum p.expert_confidence else pyNone),
   ("expert_advice", if ia then optStr p.expert_advice else pyNone)]
  ++ trendFields trending p.name

/-- Python `f"{q:.1f}"` on the exact rational (Python formatting also
rounds half to even at this idealisation). -/
def fmt1 (q : ℚ) : String :=
  let r := roundHalfEven (q * 10)
  let sign := if r < 0 then "-" else ""
  let a := r.natAbs
  sign ++ toString (a / 10) ++ "." ++ toString (a % 10)

/-- The `scarcity_text` fragment of the analysis string. -/
def scarcityText (posScarcity : ℚ) (pos : String) : String :=
  if 7 < posScarcity then " HIGH SCARCITY at " ++ pos ++ "!"
  else if 4 < posScarcity then " Moderate scarcity at " ++ pos ++ "."
  else ""

/-- The `base["analysis"]` f-string of the waiver analysis block
(numeric interpolations via the exact-rational formatter). -/
def analysisText (tier : String) (ec : ℚ) (recd : String) (wpRounded : ℚ)
    (proj owned : ℚ) (trend : ℚ) (scarTxt : String) : String :=
  tier ++ " tier player with " ++ toString ec ++ "% confidence. Recommendation: "
    ++ recd ++ ". Priority: " ++ fmt1 wpRounded ++ "/100 (proj: " ++ fmt1 proj
    ++ ", owned: " ++ fmt1 owned ++ "%, trending: " ++ toString trend ++ ")"
    ++ scarTxt

/-- `base["position_context"] = position_scarcity.get(player.position,
{"scarcity_score": 0, "avg_ownership": 0, "available_count": 0})`. -/
def positionContext (basic : List BPlayer) (pos : String) : PyVal :=
  if (positionGroup basic pos).length = 0 then
    pyDict [("scarcity_score", pyNum 0), ("avg_ownership", pyNum 0),
            ("available_count", pyNum 0)]
  else
    pyDict [("scarcity_score", pyNum (scarcityScore (avgOwned basic pos))),
            ("avg_ownership", pyNum (round1 (avgOwned basic pos))),
            ("available_count", pyNum (positionGroup basic pos).length)]

/-- One entry of `enhanced_list`: the serialized player, plus — when
`include_analysis` — the waiver-priority analysis keys appended in
assignment order.  The reads `base.get("trending_count", 0)` and
`base.get("owned_pct", 0.0)` are exactly `lookupTrend`/`lookupOwned`
by construction of `serialize_waiver_player`. -/
def waiverEntry (ip ie ia : Bool) (basic : List BPlayer)
    (trending : List TrendEntry) (p : Player) : List (String × PyVal) :=
  let base := serialize_waiver_player ip ie ia basic trending p
  if ia then
    let ec := p.expert_confidence.getD 50
    let proj := p.yahoo_projection.getD 0 + p.sleeper_projection.getD 0
    let trendScore := match lookupTrend trending p.name with
      | some t => t.count.getD 0
      | none => 0
    let owned := lookupOwned basic p.name
    let ps := positionScarcityScore basic p.position
    let sb := scarcityBonus ps
    let wp := waiverPriority ec proj trendScore owned ps
    base ++ [("waiver_priority", pyNum (round1 wp)),
             ("analysis", pyStr (analysisText (p.expert_tier.getD "Unknown") ec
               (p.expert_recommendation.getD "Monitor") (round1 wp) proj owned
               trendScore (scarcityText ps p.position))),
             ("pickup_urgency", pyStr (pickupUrgency (urgencyThreshold wp sb))),
             ("position_context", positionContext basic p.position)]
  else base

/-! ## Response assembly -/

/-- The pre-enhancement `result` dict of `handle_ff_get_players`
(`"position": position or "all"`, `"total_players": len(basic_players)`,
`"players": basic_players[:count]`). -/
def getPlayersBasicResult (lk position : String) (basic : List BPlayer)
    (count : ℕ) : List (String × PyVal) :=
  [("status", pyStr "success"),
   ("league_key", pyStr lk),
   ("position", pyStr (if position = "" then "all" else position)),
   ("total_players", pyNum basic.length),
   ("players", pyList ((basic.take count).map bplayerToPy))]

/-- The pre-enhancement `result` dict of `handle_ff_get_waiver_wire`
(the whole provider list is stored, untruncated). -/
def waiverBasicResult (lk : String) (position : PyVal) (sort : String)
    (basic : List BPlayer) : List (String × PyVal) :=
  [("status", pyStr "success"),
   ("league_key", pyStr lk),
   ("position", position),
   ("sort", pyStr sort),
   ("total_players", pyNum basic.length),
   ("players", pyList (basic.map bplayerToPy))]

/-- The early return of `handle_ff_get_waiver_wire` when the provider
returns no players. -/
def waiverEmptyResult (lk : String) (position : PyVal) (sort : String) :
    List (String × PyVal) :=
  [("status", pyStr "success"),
   ("league_key", pyStr lk),
   ("position", position),
   ("sort", pyStr sort),
   ("total_players", pyNum 0),
   ("players", pyList []),
   ("message", pyStr "No available players found matching the criteria")]

/-- `result["note"] = f"Enhancement failed: {exc}. Using basic data."`. -/
def enhancementNote (exc : String) : String :=
  "Enhancement failed: " ++ exc ++ ". Using basic data."

/-- The `try/except Exception` around the whole enhancement block: on
success `result.update(extra)` (the pre-existing keys are untouched and
`extra` holds fresh keys), on an exception the note key is set and the
basic result is returned otherwise unchanged. -/
def applyEnhancement (base : List (String × PyVal))
    (outcome : Except String (List (String × PyVal))) :
    List (String × PyVal) :=
  match outcome with
  | Except.error exc => base ++ [("note", pyStr (enhancementNote exc))]
  | Except.ok extra => base ++ extra

/-! ## Argument sanitization of `handle_ff_get_waiver_wire` -/

/-- Python `int(x)` truncates toward zero. -/
def ratTrunc (q : ℚ) : ℤ := if 0 ≤ q then ⌊q⌋ else ⌈q⌉

/-- Value of a decimal-digit string (`none` if empty or non-digit). -/
def decDigits (cs : List Char) : Option ℕ :=
  match cs with
  | [] => none
  | _ =>
    cs.foldl
      (fun acc c =>
        match acc with
        | some n => if c.isDigit then some (n * 10 + (c.toNat - 48)) else none
        | none => none)
      (some 0)

/-- Python `int(s)` on a string: an optional sign followed by decimal
digits (the whitespace/underscore liberality of CPython is out of scope
for the arguments the handler sees). -/
def pyStrToInt (s : String) : Option ℤ :=
  match s.data with
  | '-' :: rest => (decDigits rest).map (fun n => -(n : ℤ))
  | '+' :: rest => (decDigits rest).map (fun n => (n : ℤ))
  | cs => (decDigits cs).map (fun n => (n : ℤ))

/-- Python `int(value)` on the argument value: numbers truncate,
numeric strings parse, booleans coerce; everything else raises
(`ValueError`/`TypeError`), modelled as `none`. -/
def pyToInt : PyVal → Option ℤ
  | pyNum q => some (ratTrunc q)
  | pyStr s => pyStrToInt s
  | pyBool b => some (if b then 1 else 0)
  | pyNone => none
  | pyList _ => none
  | pyDict _ => none

/-- `sort = arguments.get("sort", "rank")`, then reset to `"rank"`
unless it is one of the four accepted strings. -/
def sanitizeSort (v : Option PyVal) : String :=
  match v.getD (pyStr "rank") with
  | pyStr s =>
      if s = "rank" ∨ s = "points" ∨ s = "owned" ∨ s = "trending" then s
      else "rank"
  | _ => "rank"

/-- `count = arguments.get("count", 30)`, then `int(count)` with fall
back to 30 on conversion failure or a value below 1. -/
def sanitizeCount (v : Option PyVal) : ℤ :=
  match pyToInt (v.getD (pyNum 30)) with
  | some n => if n < 1 then 30 else n
  | none => 30

/-- `position = arguments.get("position", "all")`, then `None` is
replaced by `"all"` (other values pass through unchanged). -/
def sanitizePosition (v : Option PyVal) : PyVal :=
  match v.getD (pyStr "all") with
  | pyNone => pyStr "all"
  | x => x

/-! ## Required-argument guards (handler fronts)

Each handler's argument-validation prefix, with the rest of the handler
abstracted as a continuation `rest` that would perform the external
provider calls.  The second component of the result is the list of
external calls issued: the guard branches issue none. -/

/-- The `if not arguments.get("league_key")` guard of
`handle_ff_get_players`. -/
def getPlayersFront (leagueKey : Option String)
    (rest : Unit → List (String × PyVal) × List String) :
    List (String × PyVal) × List String :=
  if pyFalsyStr leagueKey then
    ([("error", pyStr "league_key is required")], [])
  else rest ()

/-- The `if not arguments.get("league_key")` guard of
`handle_ff_get_waiver_wire`. -/
def waiverFront (leagueKey : Option String)
    (rest : Unit → List (String × PyVal) × List String) :
    List (String × PyVal) × List String :=
  if pyFalsyStr leagueKey then
    ([("status", pyStr "error"),
      ("error", pyStr "league_key is required"),
      ("message", pyStr "Please provide a league_key parameter")], [])
  else rest ()

/-- The guards of `handle_ff_get_player_weekly_points` (after the
dependency-injection check): `league_id or league_key` and
`player_id or player_key` must be truthy. -/
def weeklyFront (league_id league_key player_id player_key : Option String)
    (rest : Unit → List (String × PyVal) × List String) :
    List (String × PyVal) × List String :=
  let league := pyOrOpt league_id league_key
  let player := pyOrOpt player_id player_key
  if pyFalsyStr league then
    ([("status", pyStr "error"),
      ("error", pyStr "missing_league_id"),
      ("message", pyStr "league_id (or league_key) is required")], [])
  else if pyFalsyStr player then
    ([("status", pyStr "error"),
      ("error", pyStr "missing_player_id"),
      ("message", pyStr "player_id (or player_key) is required")], [])
  else rest ()

/-! ## Weekly-points week-range logic -/

/-- Python `x or 1` on an int (`0` is falsy). -/
def pyOrIntZ (x d : ℤ) : ℤ := if x = 0 then d else x

/-- `start_week = max(_parse_int(start_week_raw, 1) or 1, 1)`; the raw
argument is modelled post-`_parse_int`: `none` when absent or
unparseable. -/
def startWeekOf (raw : Option ℤ) : ℤ := max (pyOrIntZ (raw.getD 1) 1) 1

/-- `end_week = max(start_week, min(requested_end_week, 18))` when an
end week was requested, else `min(max(current_week, start_week), 18)`. -/
def endWeekOf (startW : ℤ) (raw : Option ℤ) (currentWeek : ℤ) : ℤ :=
  match raw with
  | some r => max startW (min r 18)
  | none => min (max currentWeek startW) 18

/-- One entry of the `weeks` list. -/
structure WeekEntry where
  week_number : ℤ
  earned_points : Option ℚ
  sleeper_projected_points : Option ℚ
  deriving DecidableEq, Repr

/-- The successful response of `handle_ff_get_player_weekly_points`,
restricted to the fields the claims are about. -/
structure WeeklyResponse where
  status : String
  start_week : ℤ
  end_week : ℤ
  weeks : List WeekEntry
  deriving Repr

/-- `for week in range(start_week, end_week + 1)`: the per-week Sleeper
stats/projections extraction is an oracle `Int → Option ℚ` (a failed or
empty lookup is `none`); present values go through `_round_or_none`. -/
def buildWeeks (s e : ℤ) (stats proj : ℤ → Option ℚ) : List WeekEntry :=
  (List.range (e + 1 - s).toNat).map (fun (i : ℕ) =>
    { week_number := s + (i : ℤ),
      earned_points := (stats (s + (i : ℤ))).map round2,
      sleeper_projected_points := (proj (s + (i : ℤ))).map round2 })

/-- The week-range resolution and weekly loop of
`handle_ff_get_player_weekly_points`, for a call that passed all
guards and lookups. -/
def weeklyResult (startRaw endRaw : Option ℤ) (currentWeek : ℤ)
    (stats proj : ℤ → Option ℚ) : WeeklyResponse :=
  let s := startWeekOf startRaw
  let e := endWeekOf s endRaw currentWeek
  { status := "success", start_week := s, end_week := e,
    weeks := buildWeeks s e stats proj }

/-! ## Case-insensitivity relations (for the merge claims)

Two source records agree up to letter case when their names have the
same lowercase form and every other consulted field is identical. -/

/-- Basic players equal up to the letter case of the name. -/
def samePlayerB (p q : BPlayer) : Bool :=
  (pyLower p.name == pyLower q.name) && decide (p.owned_pct = q.owned_pct)
    && decide (p.weekly_change = q.weekly_change) && decide (p.bye = q.bye)

/-- Pointwise `samePlayerB` on two basic-player lists. -/
def allSameUpToCase : List BPlayer → List BPlayer → Bool
  | [], [] => true
  | p :: ps, q :: qs => samePlayerB p q && allSameUpToCase ps qs
  | _, _ => false

/-- Trending entries equal up to the letter case of the name. -/
def sameTrendB (t u : TrendEntry) : Bool :=
  (pyLower t.name == pyLower u.name) && decide (t.count = u.count)
    && decide (t.position = u.position)

/-- Pointwise `sameTrendB` on two trending lists. -/
def allSameTrend : List TrendEntry → List TrendEntry → Bool
  | [], [] => true
  | t :: ts, u :: us => sameTrendB t u && allSameTrend ts us
  | _, _ => false

/-- Relates two `Option`s: both absent, or both present and related. -/
def OptRel (r : α → β → Prop) : Option α → Option β → Prop
  | some a, some b => r a b
  | none, none => True
  | _, _ => False

/-! ## Theorems -/

/-- C1, counterexample.  A single WR basic player owned 10.2% gives the
position an average ownership of 10.2, whose scarcity score the code
rounds to one decimal (`round(min(10.2/10, 10), 1) = 1.0`) before
weighting, while the claim's formula keeps the unrounded
`min(avg/10, 10) = 1.02`.  With expert confidence 80, total projection
15 and 4 trending adds the code's waiver priority is 80.42 but the
claimed formula yields 80.43; rounding the code's score to one decimal
(80.4) does not close the gap either. -/
theorem c1_counterexample :
    positionScarcityScore [⟨"A", some "WR", some (51/5), none, none⟩] "WR" = 1 ∧
    waiverPriority 80 15 4 (51/5)
      (positionScarcityScore [⟨"A", some "WR", some (51/5), none, none⟩] "WR")
      = 4021/50 ∧
    specWaiverPriority 80 15 4 (51/5) (51/5) = 8043/100 ∧
    waiverPriority 80 15 4 (51/5)
      (positionScarcityScore [⟨"A", some "WR", some (51/5), none, none⟩] "WR")
      ≠ specWaiverPriority 80 15 4 (51/5) (51/5) ∧
    round1 (waiverPriority 80 15 4 (51/5)
      (positionScarcityScore [⟨"A", some "WR", some (51/5), none, none⟩] "WR"))
      ≠ specWaiverPriority 80 15 4 (51/5) (51/5) := by
  have hps : positionScarcityScore
      [⟨"A", some "WR", some (51/5), none, none⟩] "WR" = 1 := by
    norm_num [positionScarcityScore, positionGroup, avgOwned, scarcityScore,
      round1, roundHalfEven, List.filter]
  have hwp : waiverPriority 80 15 4 (51/5) 1 = 4021/50 := by
    norm_num [waiverPriority, confidenceScore, projectionScore, ownershipBonus,
      trendingBonus, scarcityBonus]
  have hsp : specWaiverPriority 80 15 4 (51/5) (51/5) = 8043/100 := by
    norm_num [specWaiverPriority]
  have hr : round1 (4021/50 : ℚ) = 402/5 := by
    norm_num [round1, roundHalfEven]
  refine ⟨hps, by rw [hps]; exact hwp, hsp, ?_, ?_⟩
  · rw [hps, hwp, hsp]; norm_num
  · rw [hps, hwp, hr, hsp]; norm_num

/-- C1, amended.  The waiver priority equals the spec's weighted sum
except that the position-scarcity input is the stored `scarcity_score`,
i.e. `min(avg_owned/10, 10)` rounded to one decimal; the spec's worked
example (confidence 80, projection 15, trend 4, owned 10, position
average ownership 10) is unaffected by the rounding and yields priority
80.5, urgency threshold 81.5 and the "must add" tier. -/
theorem c1_amended :
    (∀ ec proj trend owned avg : ℚ,
      waiverPriority ec proj trend owned (scarcityScore avg)
        = (35/100) * ec + min (2 * proj) 30 + max 0 ((50 - owned) * (2/5))
          + min ((3/2) * trend) 10
          + min ((1/2) * round1 (min (avg / 10) 10)) 5) ∧
    positionScarcityScore [⟨"A", some "WR", some 10, none, none⟩] "WR" = 1 ∧
    waiverPriority 80 15 4 10 1 = 161/2 ∧
    specWaiverPriority 80 15 4 10 10 = 161/2 ∧
    urgencyThreshold (161/2) (scarcityBonus 1) = 163/2 ∧
    pickupUrgency (163/2) = "MUST ADD - Elite waiver target" := by
  refine ⟨fun ec proj trend owned avg => ?_,
    by norm_num [positionScarcityScore, positionGroup, avgOwned, scarcityScore,
         round1, roundHalfEven, List.filter],
    by norm_num [waiverPriority, confidenceScore, projectionScore,
         ownershipBonus, trendingBonus, scarcityBonus],
    by norm_num [specWaiverPriority],
    by norm_num [urgencyThreshold, scarcityBonus],
    by norm_num [pickupUrgency]⟩
  unfold waiverPriority confidenceScore projectionScore ownershipBonus
    trendingBonus scarcityBonus scarcityScore
  rw [mul_comm ec, mul_comm proj, mul_comm trend, mul_comm (round1 _)]

/-- C2.  The pickup-urgency tiers are decided on
`urgency_threshold = waiver_priority + 2*scarcity_bonus` with inclusive
lower bounds 80/65/50/35, a threshold exactly at a bound mapping to the
higher tier. -/
theorem c2_urgency_tiers :
    (∀ wp sb : ℚ, urgencyThreshold wp sb = wp + 2 * sb) ∧
    (∀ u : ℚ,
      (pickupUrgency u = "MUST ADD - Elite waiver target" ↔ 80 ≤ u) ∧
      (pickupUrgency u = "High Priority - Strong pickup" ↔ 65 ≤ u ∧ u < 80) ∧
      (pickupUrgency u = "Moderate - Worth a claim" ↔ 50 ≤ u ∧ u < 65) ∧
      (pickupUrgency u = "Low Priority - Depth option" ↔ 35 ≤ u ∧ u < 50) ∧
      (pickupUrgency u = "Avoid - Better options available" ↔ u < 35)) ∧
    pickupUrgency 80 = "MUST ADD - Elite waiver target" ∧
    pickupUrgency 65 = "High Priority - Strong pickup" ∧
    pickupUrgency 50 = "Moderate - Worth a claim" ∧
    pickupUrgency 35 = "Low Priority - Depth option" := by
  refine ⟨fun wp sb => by unfold urgencyThreshold; ring, fun u => ?_,
    by norm_num [pickupUrgency], by norm_num [pickupUrgency],
    by norm_num [pickupUrgency], by norm_num [pickupUrgency]⟩
  unfold pickupUrgency
  split_ifs with h1 h2 h3 h4 <;>
    refine ⟨?_, ?_, ?_, ?_, ?_⟩ <;> simp_all <;> intros <;> linarith

/-- A sample optimizer player with no optional attribute set. -/
def samplePlayer : Player :=
  { name := "A", position := "WR", team := "MIN", opponent := none,
    status := none, yahoo_projection := none, sleeper_projection := none,
    sleeper_id := none, sleeper_match_method := none,
    floor_projection := none, ceiling_projection := none,
    consistency_score := none, player_tier := none, matchup_score := none,
    matchup_description := none, trending_score := none, risk_level := none,
    injury_status := none, expert_tier := none, expert_recommendation := none,
    expert_confidence := none, expert_advice := none }

/-- C3, counterexample.  `handle_ff_get_players` sets
`total_players = len(basic_players)` but `players = basic_players[:count]`:
with three extracted players and `count = 2` the response says
`total_players = 3` while the players list has 2 entries, refuting
`total_players == len(players)`. -/
theorem c3_counterexample :
    getKey (getPlayersBasicResult "l" ""
        [⟨"A", none, none, none, none⟩, ⟨"B", none, none, none, none⟩,
         ⟨"C", none, none, none, none⟩] 2) "total_players"
      = some (pyNum 3) ∧
    getKey (getPlayersBasicResult "l" ""
        [⟨"A", none, none, none, none⟩, ⟨"B", none, none, none, none⟩,
         ⟨"C", none, none, none, none⟩] 2) "players"
      = some (pyList [bplayerToPy ⟨"A", none, none, none, none⟩,
                      bplayerToPy ⟨"B", none, none, none, none⟩]) ∧
    [bplayerToPy ⟨"A", none, none, none, none⟩,
     bplayerToPy ⟨"B", none, none, none, none⟩].length = 2 ∧
    (3 : ℚ) ≠ (2 : ℚ) := by
  refine ⟨rfl, rfl, rfl, by norm_num⟩

/-- C3, amended.  `handle_ff_get_waiver_wire` does satisfy
`total_players == len(players)` (it stores the provider list whole, the
requested count having been passed to the provider), while
`handle_ff_get_players` truncates `players` to `count` but reports the
full extracted length in `total_players`, so there the two agree only
when the extracted list fits within `count`. -/
theorem c3_amended :
    ∀ (lk pos sortv : String) (posv : PyVal) (basic : List BPlayer) (count : ℕ),
    getKey (getPlayersBasicResult lk pos basic count) "total_players"
        = some (pyNum basic.length) ∧
    getKey (getPlayersBasicResult lk pos basic count) "players"
        = some (pyList ((basic.take count).map bplayerToPy)) ∧
    ((basic.take count).map bplayerToPy).length ≤ count ∧
    ((basic.take count).map bplayerToPy).length = min count basic.length ∧
    getKey (waiverBasicResult lk posv sortv basic) "total_players"
        = some (pyNum basic.length) ∧
    getKey (waiverBasicResult lk posv sortv basic) "players"
        = some (pyList (basic.map bplayerToPy)) ∧
    (basic.map bplayerToPy).length = basic.length := by
  intro lk pos sortv posv basic count
  refine ⟨rfl, rfl, ?_, ?_, rfl, rfl, by simp⟩
  · simp [List.length_take]
  · simp [List.length_take]

/-- C5, counterexample.  With `include_analysis=False` the serialized
record still CONTAINS the `expert_tier` key (its value is `None`), so
"no expert_* fields appear" fails; the spec's intent holds only for
`waiver_priority`/`pickup_urgency`, which are genuinely absent. -/
theorem c5_counterexample :
    getKey (waiverEntry true true false [] [] samplePlayer) "expert_tier"
      = some pyNone ∧
    "expert_tier" ∈ (waiverEntry true true false [] [] samplePlayer).map Prod.fst := by
  refine ⟨rfl, by simp [waiverEntry, serialize_waiver_player, trendFields,
    lookupTrend]⟩

/-- C5, amended.  With `include_analysis=False` no `waiver_priority` or
`pickup_urgency` key appears in the serialized record, and the four
`expert_*` keys are all present with value `None` (null), for every
player, basic list, trending list and setting of the other flags. -/
theorem c5_amended :
    ∀ (ip ie : Bool) (basic : List BPlayer) (trending : List TrendEntry)
      (p : Player),
    ¬ "waiver_priority" ∈ (waiverEntry ip ie false basic trending p).map Prod.fst ∧
    ¬ "pickup_urgency" ∈ (waiverEntry ip ie false basic trending p).map Prod.fst ∧
    getKey (waiverEntry ip ie false basic trending p) "expert_tier"
      = some pyNone ∧
    getKey (waiverEntry ip ie false basic trending p) "expert_recommendation"
      = some pyNone ∧
    getKey (waiverEntry ip ie false basic trending p) "expert_confidence"
      = some pyNone ∧
    getKey (waiverEntry ip ie false basic trending p) "expert_advice"
      = some pyNone := by
  intro ip ie basic trending p
  cases h : lookupTrend trending p.name <;>
    refine ⟨?_, ?_, ?_, ?_, ?_, ?_⟩ <;>
      simp [waiverEntry, serialize_waiver_player, trendFields, h, getKey,
        List.find?]

/-- C6.  When the enhancement block throws (`except Exception`), both
handlers return the pre-enhancement result with `status = "success"`,
the untouched basic players list, and an explanatory `note` field:
enrichment failure is never fatal to the request. -/
theorem c6_enrichment_failure_not_fatal :
    ∀ (lk pos sortv : String) (posv : PyVal) (basic : List BPlayer)
      (count : ℕ) (exc : String),
    getKey (applyEnhancement (waiverBasicResult lk posv sortv basic)
        (Except.error exc)) "status" = some (pyStr "success") ∧
    getKey (applyEnhancement (waiverBasicResult lk posv sortv basic)
        (Except.error exc)) "players" = some (pyList (basic.map bplayerToPy)) ∧
    getKey (applyEnhancement (waiverBasicResult lk posv sortv basic)
        (Except.error exc)) "note" = some (pyStr (enhancementNote exc)) ∧
    getKey (applyEnhancement (getPlayersBasicResult lk pos basic count)
        (Except.error exc)) "status" = some (pyStr "success") ∧
    getKey (applyEnhancement (getPlayersBasicResult lk pos basic count)
        (Except.error exc)) "players"
      = some (pyList ((basic.take count).map bplayerToPy)) ∧
    getKey (applyEnhancement (getPlayersBasicResult lk pos basic count)
        (Except.error exc)) "note" = some (pyStr (enhancementNote exc)) := by
  intro lk pos sortv posv basic count exc
  exact ⟨rfl, rfl, rfl, rfl, rfl, rfl⟩

/-- Unpack `samePlayerB` into its component facts. -/
theorem samePlayerB_fields {p q : BPlayer} (h : samePlayerB p q = true) :
    pyLower p.name = pyLower q.name ∧ p.owned_pct = q.owned_pct ∧
    p.weekly_change = q.weekly_change ∧ p.bye = q.bye := by
  simp only [samePlayerB, Bool.and_eq_true, beq_iff_eq,
    decide_eq_true_eq] at h
  exact ⟨h.1.1.1, h.1.1.2, h.1.2, h.2⟩

/-- Unpack `sameTrendB` into its component facts. -/
theorem sameTrendB_fields {t u : TrendEntry} (h : sameTrendB t u = true) :
    pyLower t.name = pyLower u.name ∧ t.count = u.count ∧
    t.position = u.position := by
  simp only [sameTrendB, Bool.and_eq_true, beq_iff_eq,
    decide_eq_true_eq] at h
  exact ⟨h.1.1, h.1.2, h.2⟩

/-- The `next(... if p.get("name", "").lower() == player.name.lower())`
generator finds related entries (or none on both sides) on two lists
that agree up to name case, for two query names equal up to case. -/
theorem find_rel_of_allSame {nm nm' : String} (hn : pyLower nm = pyLower nm') :
    ∀ {l₁ l₂ : List BPlayer}, allSameUpToCase l₁ l₂ = true →
    OptRel (fun p q => samePlayerB p q = true)
      (l₁.find? (fun b => pyLower b.name == pyLower nm))
      (l₂.find? (fun b => pyLower b.name == pyLower nm')) := by
  intro l₁
  induction l₁ with
  | nil =>
    intro l₂ h
    cases l₂ with
    | nil => simp [List.find?, OptRel]
    | cons q qs => simp [allSameUpToCase] at h
  | cons p ps ih =>
    intro l₂ h
    cases l₂ with
    | nil => simp [allSameUpToCase] at h
    | cons q qs =>
      simp only [allSameUpToCase, Bool.and_eq_true] at h
      obtain ⟨hpq, hrest⟩ := h
      have hname := (samePlayerB_fields hpq).1
      by_cases hm : pyLower p.name = pyLower nm
      · have hm' : pyLower q.name = pyLower nm' := by rw [← hname, hm, hn]
        rw [List.find?_cons_of_pos _ (by simpa using hm),
          List.find?_cons_of_pos _ (by simpa using hm')]
        exact hpq
      · have hm' : ¬ pyLower q.name = pyLower nm' := by
          rw [← hname, ← hn]; exact hm
        rw [List.find?_cons_of_neg _ (by simpa using hm),
          List.find?_cons_of_neg _ (by simpa using hm')]
        exact ih hrest

/-- The fold building/querying `trending_dict` (last entry wins for a
repeated lowercase key) yields related results on two trending lists
that agree up to name case. -/
theorem foldl_trend_rel {nm nm' : String} (hn : pyLower nm = pyLower nm') :
    ∀ (l₁ l₂ : List TrendEntry) (a₁ a₂ : Option TrendEntry),
    allSameTrend l₁ l₂ = true →
    OptRel (fun t u => sameTrendB t u = true) a₁ a₂ →
    OptRel (fun t u => sameTrendB t u = true)
      (l₁.foldl (fun acc t => if pyLower t.name == pyLower nm then some t else acc) a₁)
      (l₂.foldl (fun acc u => if pyLower u.name == pyLower nm' then some u else acc) a₂) := by
  intro l₁
  induction l₁ with
  | nil =>
    intro l₂ a₁ a₂ h ha
    cases l₂ with
    | nil => simpa [List.foldl] using ha
    | cons u us => simp [allSameTrend] at h
  | cons t ts ih =>
    intro l₂ a₁ a₂ h ha
    cases l₂ with
    | nil => simp [allSameTrend] at h
    | cons u us =>
      simp only [allSameTrend, Bool.and_eq_true] at h
      obtain ⟨htu, hrest⟩ := h
      have hname := (sameTrendB_fields htu).1
      simp only [List.foldl]
      by_cases hm : pyLower t.name = pyLower nm
      · have hm' : pyLower u.name = pyLower nm' := by rw [← hname, hm, hn]
        rw [if_pos (by simpa using hm), if_pos (by simpa using hm')]
        exact ih us (some t) (some u) hrest htu
      · have hm' : ¬ pyLower u.name = pyLower nm' := by
          rw [← hname, ← hn]; exact hm
        rw [if_neg (by simpa using hm), if_neg (by simpa using hm')]
        exact ih us a₁ a₂ hrest ha

/-- C7.  All name-based merging is case-insensitive: changing only the
letter case of names on either side of the join (the basic Yahoo list,
the trending list, or the queried player name) changes none of the
merged `owned_pct`, `weekly_change`, `bye`, `trending_count` or
`trending_position` values. -/
theorem c7_case_insensitive_merge (basic basic' : List BPlayer)
    (trending trending' : List TrendEntry) (nm nm' : String)
    (hn : pyLower nm = pyLower nm')
    (hb : allSameUpToCase basic basic' = true)
    (ht : allSameTrend trending trending' = true) :
    lookupOwned basic nm = lookupOwned basic' nm' ∧
    lookupWeeklyChange basic nm = lookupWeeklyChange basic' nm' ∧
    lookupBye basic nm = lookupBye basic' nm' ∧
    trendFields trending nm = trendFields trending' nm' := by
  have hf := find_rel_of_allSame hn hb
  have hg := foldl_trend_rel hn trending trending' none none ht trivial
  refine ⟨?_, ?_, ?_, ?_⟩
  · unfold lookupOwned
    revert hf
    cases basic.find? (fun b => pyLower b.name == pyLower nm) <;>
      cases basic'.find? (fun b => pyLower b.name == pyLower nm') <;>
        intro hf <;> simp [OptRel] at hf ⊢
    rw [(samePlayerB_fields hf).2.1]
  · unfold lookupWeeklyChange
    revert hf
    cases basic.find? (fun b => pyLower b.name == pyLower nm) <;>
      cases basic'.find? (fun b => pyLower b.name == pyLower nm') <;>
        intro hf <;> simp [OptRel] at hf ⊢
    rw [(samePlayerB_fields hf).2.2.1]
  · unfold lookupBye
    revert hf
    cases basic.find? (fun b => pyLower b.name == pyLower nm) <;>
      cases basic'.find? (fun b => pyLower b.name == pyLower nm') <;>
        intro hf <;> simp [OptRel] at hf ⊢
    rw [(samePlayerB_fields hf).2.2.2]
  · unfold trendFields lookupTrend
    revert hg
    cases trending.foldl
        (fun acc t => if pyLower t.name == pyLower nm then some t else acc) none <;>
      cases trending'.foldl
          (fun acc u => if pyLower u.name == pyLower nm' then some u else acc) none <;>
        intro hg <;> simp [OptRel] at hg ⊢
    rw [(sameTrendB_fields hg).2.1, (sameTrendB_fields hg).2.2]
    exact ⟨rfl, rfl⟩

/-- C7, witness: "Justin Jefferson" under three different letter cases
merges identically. -/
theorem c7_witness :
    lookupOwned [⟨"Justin Jefferson", some "WR", some 45, some 2, some "7"⟩]
        "justin jefferson"
      = lookupOwned [⟨"JUSTIN JEFFERSON", some "WR", some 45, some 2, some "7"⟩]
        "Justin JEFFERSON" ∧
    lookupWeeklyChange [⟨"Justin Jefferson", some "WR", some 45, some 2, some "7"⟩]
        "justin jefferson"
      = lookupWeeklyChange [⟨"JUSTIN JEFFERSON", some "WR", some 45, some 2, some "7"⟩]
        "Justin JEFFERSON" ∧
    lookupBye [⟨"Justin Jefferson", some "WR", some 45, some 2, some "7"⟩]
        "justin jefferson"
      = lookupBye [⟨"JUSTIN JEFFERSON", some "WR", some 45, some 2, some "7"⟩]
        "Justin JEFFERSON" ∧
    trendFields [⟨"Justin Jefferson", some 3, some "WR"⟩] "justin jefferson"
      = trendFields [⟨"justin jefferson", some 3, some "WR"⟩] "Justin JEFFERSON" :=
  c7_case_insensitive_merge
    [⟨"Justin Jefferson", some "WR", some 45, some 2, some "7"⟩]
    [⟨"JUSTIN JEFFERSON", some "WR", some 45, some 2, some "7"⟩]
    [⟨"Justin Jefferson", some 3, some "WR"⟩]
    [⟨"justin jefferson", some 3, some "WR"⟩]
    "justin jefferson" "Justin JEFFERSON"
    (by decide) (by decide) (by decide)

/-- C8.  Every handler returns its structured error object immediately
when a required argument is missing (absent, `None`, or empty string),
issuing no external provider call: `league_key` for the players and
waiver handlers, `league_id`/`league_key` and `player_id`/`player_key`
for the weekly-points handler (whose guards fire in that order). -/
theorem c8_missing_required_args
    (lk lkw liA lkA piA pkA liB lkB piB pkB : Option String)
    (rest₁ rest₂ rest₃ rest₄ : Unit → List (String × PyVal) × List String)
    (h1 : pyFalsyStr lk = true)
    (h2 : pyFalsyStr lkw = true)
    (h3 : pyFalsyStr (pyOrOpt liA lkA) = true)
    (h4 : pyFalsyStr (pyOrOpt liB lkB) = false)
    (h5 : pyFalsyStr (pyOrOpt piB pkB) = true) :
    getPlayersFront lk rest₁
      = ([("error", pyStr "league_key is required")], []) ∧
    waiverFront lkw rest₂
      = ([("status", pyStr "error"),
          ("error", pyStr "league_key is required"),
          ("message", pyStr "Please provide a league_key parameter")], []) ∧
    weeklyFront liA lkA piA pkA rest₃
      = ([("status", pyStr "error"),
          ("error", pyStr "missing_league_id"),
          ("message", pyStr "league_id (or league_key) is required")], []) ∧
    weeklyFront liB lkB piB pkB rest₄
      = ([("status", pyStr "error"),
          ("error", pyStr "missing_player_id"),
          ("message", pyStr "player_id (or player_key) is required")], []) := by
  refine ⟨?_, ?_, ?_, ?_⟩
  · simp [getPlayersFront, h1]
  · simp [waiverFront, h2]
  · simp [weeklyFront, h3]
  · simp [weeklyFront, h4, h5]

/-- C8, witness: a missing, a `None`-like, and an empty `league_key`,
and a present league with a missing player, all at concrete inputs. -/
theorem c8_witness :
    getPlayersFront none (fun _ => ([], ["yahoo_api_call"]))
      = ([("error", pyStr "league_key is required")], []) ∧
    waiverFront (some "") (fun _ => ([], ["get_waiver_wire_players"]))
      = ([("status", pyStr "error"),
          ("error", pyStr "league_key is required"),
          ("message", pyStr "Please provide a league_key parameter")], []) ∧
    weeklyFront none (some "") (some "123") none
        (fun _ => ([], ["yahoo_api_call"]))
      = ([("status", pyStr "error"),
          ("error", pyStr "missing_league_id"),
          ("message", pyStr "league_id (or league_key) is required")], []) ∧
    weeklyFront (some "449.l.1") none none (some "")
        (fun _ => ([], ["yahoo_api_call"]))
      = ([("status", pyStr "error"),
          ("error", pyStr "missing_player_id"),
          ("message", pyStr "player_id (or player_key) is required")], []) :=
  c8_missing_required_args none (some "") none (some "") (some "123") none
    (some "449.l.1") none none (some "")
    (fun _ => ([], ["yahoo_api_call"]))
    (fun _ => ([], ["get_waiver_wire_players"]))
    (fun _ => ([], ["yahoo_api_call"]))
    (fun _ => ([], ["yahoo_api_call"]))
    (by decide) (by decide) (by decide) (by decide) (by decide)

/-- C9, counterexample.  The sanitization itself matches the claim, but
the final clause fails: the sanitized `count` is NOT echoed in the
response — neither success-shaped waiver response contains a `"count"`
key at all. -/
theorem c9_counterexample :
    sanitizeSort (some (pyStr "alphabetical")) = "rank" ∧
    sanitizeCount (some (pyStr "abc")) = 30 ∧
    sanitizeCount (some (pyNum 0)) = 30 ∧
    sanitizePosition (some pyNone) = pyStr "all" ∧
    getKey (waiverBasicResult "449.l.1" (pyStr "all") "rank" []) "count" = none ∧
    getKey (waiverEmptyResult "449.l.1" (pyStr "all") "rank") "count" = none := by
  refine ⟨rfl, rfl, ?_, rfl, rfl, rfl⟩
  norm_num [sanitizeCount, pyToInt, ratTrunc]

/-- C9, amended.  `handle_ff_get_waiver_wire` sanitizes its optional
arguments before any processing — an unrecognized sort becomes
`"rank"`, an unconvertible or sub-1 count becomes 30, a `None` position
becomes `"all"` — and the response echoes the sanitized position and
sort; the sanitized count is not echoed (it is only passed to the
provider fetches). -/
theorem c9_amended :
    (∀ s : String,
      ¬(s = "rank" ∨ s = "points" ∨ s = "owned" ∨ s = "trending") →
      sanitizeSort (some (pyStr s)) = "rank") ∧
    (∀ s : String,
      (s = "rank" ∨ s = "points" ∨ s = "owned" ∨ s = "trending") →
      sanitizeSort (some (pyStr s)) = s) ∧
    sanitizeSort none = "rank" ∧
    (∀ v : PyVal, pyToInt v = none → sanitizeCount (some v) = 30) ∧
    (∀ (v : PyVal) (n : ℤ), pyToInt v = some n → n < 1 →
      sanitizeCount (some v) = 30) ∧
    (∀ (v : PyVal) (n : ℤ), pyToInt v = some n → 1 ≤ n →
      sanitizeCount (some v) = n) ∧
    sanitizeCount none = 30 ∧
    sanitizePosition (some pyNone) = pyStr "all" ∧
    sanitizePosition none = pyStr "all" ∧
    (∀ (lk sortv : String) (posv : PyVal) (basic : List BPlayer),
      getKey (waiverBasicResult lk posv sortv basic) "position" = some posv ∧
      getKey (waiverBasicResult lk posv sortv basic) "sort"
        = some (pyStr sortv) ∧
      getKey (waiverBasicResult lk posv sortv basic) "count" = none) := by
  refine ⟨?_, ?_, rfl, ?_, ?_, ?_, ?_, rfl, rfl, ?_⟩
  · intro s h; simp [sanitizeSort, h]
  · intro s h; simp [sanitizeSort, h]
  · intro v h; simp [sanitizeCount, h]
  · intro v n h hn; simp [sanitizeCount, h, hn]
  · intro v n h hn; simp [sanitizeCount, h, not_lt.2 hn]
  · norm_num [sanitizeCount, pyToInt, ratTrunc]
  · exact fun lk sortv posv basic => ⟨rfl, rfl, rfl⟩

/-- C9, witness for the sanitizations at concrete inputs. -/
theorem c9_witness :
    sanitizeSort (some (pyStr "alpha")) = "rank" ∧
    sanitizeSort (some (pyStr "owned")) = "owned" ∧
    sanitizeCount (some (pyList [])) = 30 ∧
    sanitizeCount (some (pyNum 0)) = 30 ∧
    sanitizeCount (some (pyNum (7/2))) = 3 ∧
    getKey (waiverBasicResult "449.l.1" (pyStr "all") "rank" []) "count"
      = none := by
  obtain ⟨h1, h2, -, h4, h5, h6, -, -, -, h10⟩ := c9_amended
  exact ⟨h1 "alpha" (by decide), h2 "owned" (by decide),
    h4 (pyList []) rfl,
    h5 (pyNum 0) 0 (by norm_num [pyToInt, ratTrunc]) (by norm_num),
    h6 (pyNum (7/2)) 3 (by norm_num [pyToInt, ratTrunc]) (by norm_num),
    (h10 "449.l.1" "rank" (pyStr "all") []).2.2⟩

/-- C4, counterexample.  With an explicit `start_week = 10`, no
`end_week`, and `current_week = 3`, the code's default end week is
`min(max(current_week, start_week), 18) = 10`, not the claimed
`min(current_week, 18) = 3`. -/
theorem c4_counterexample :
    startWeekOf (some 10) = 10 ∧
    endWeekOf 10 none 3 = 10 ∧
    min (3 : ℤ) 18 = 3 ∧
    endWeekOf 10 none 3 ≠ min (3 : ℤ) 18 := by
  refine ⟨?_, ?_, ?_, ?_⟩ <;>
    norm_num [startWeekOf, endWeekOf, pyOrIntZ, min_def, max_def]

/-- C4, amended.  `start_week` defaults to 1; an absent `end_week`
defaults to `min(max(current_week, start_week), 18)`, which equals the
claimed `min(current_week, 18)` exactly when `start_week ≤
current_week`; an explicit `end_week` is clamped into
`[start_week, 18]` whenever `start_week ≤ 18`, and an in-range request
is kept as is. -/
theorem c4_amended (s c r : ℤ) (hsc : s ≤ c) (hs18 : s ≤ 18) :
    startWeekOf none = 1 ∧
    endWeekOf s none c = min (max c s) 18 ∧
    endWeekOf s none c = min c 18 ∧
    s ≤ endWeekOf s (some r) c ∧
    endWeekOf s (some r) c ≤ 18 ∧
    (s ≤ r → r ≤ 18 → endWeekOf s (some r) c = r) := by
  refine ⟨by norm_num [startWeekOf, pyOrIntZ], rfl, ?_, ?_, ?_, ?_⟩
  · unfold endWeekOf; rw [max_eq_left hsc]
  · exact le_max_left s (min r 18)
  · exact max_le hs18 (min_le_right r 18)
  · intro h1 h2
    show max s (min r 18) = r
    rw [min_eq_left h2, max_eq_right h1]

/-- C4, witness at `start_week = 2`, `current_week = 5`, requested
`end_week = 10`. -/
theorem c4_witness :
    startWeekOf none = 1 ∧
    endWeekOf 2 none 5 = min (max 5 2) 18 ∧
    endWeekOf 2 none 5 = min 5 18 ∧
    (2 : ℤ) ≤ endWeekOf 2 (some 10) 5 ∧
    endWeekOf 2 (some 10) 5 ≤ 18 ∧
    ((2 : ℤ) ≤ 10 → (10 : ℤ) ≤ 18 → endWeekOf 2 (some 10) 5 = 10) :=
  c4_amended 2 5 10 (by norm_num) (by norm_num)

/-- C10, counterexample.  A user-supplied `start_week = 25` with no
`end_week` and `current_week = 3` yields a SUCCESSFUL response with
`start_week = 25 > end_week = 18` and an empty `weeks` list, refuting
`1 ≤ start_week ≤ end_week ≤ 18` (and the `end - start + 1` count). -/
theorem c10_counterexample :
    (weeklyResult (some 25) none 3 (fun _ => none) (fun _ => none)).status
      = "success" ∧
    (weeklyResult (some 25) none 3 (fun _ => none) (fun _ => none)).start_week
      = 25 ∧
    (weeklyResult (some 25) none 3 (fun _ => none) (fun _ => none)).end_week
      = 18 ∧
    ¬ ((weeklyResult (some 25) none 3 (fun _ => none) (fun _ => none)).start_week
        ≤ (weeklyResult (some 25) none 3 (fun _ => none) (fun _ => none)).end_week) ∧
    (weeklyResult (some 25) none 3 (fun _ => none) (fun _ => none)).weeks = [] := by
  have hs : startWeekOf (some 25) = 25 := by
    norm_num [startWeekOf, pyOrIntZ, max_def]
  have he : endWeekOf 25 none 3 = 18 := by
    norm_num [endWeekOf, min_def, max_def]
  have hn : ((18 : ℤ) + 1 - 25).toNat = 0 := by decide
  refine ⟨rfl, ?_, ?_, ?_, ?_⟩
  · simpa [weeklyResult] using hs
  · simp [weeklyResult, hs, he]
  · simp [weeklyResult, hs, he]
  · simp [weeklyResult, buildWeeks, hs, he, hn]

/-- C10, amended.  For every successful weekly-points response,
`1 ≤ start_week`; and PROVIDED `start_week ≤ 18` (the only case the
clamp supports), `start_week ≤ end_week ≤ 18` and the `weeks` list has
exactly `end_week - start_week + 1` entries whose `week_number`s
increase consecutively from `start_week`, each entry carrying the
week's Sleeper points and projection rounded to 2 decimals, or null
when unavailable. -/
theorem c10_amended (startRaw endRaw : Option ℤ) (current : ℤ)
    (stats proj : ℤ → Option ℚ)
    (h18 : startWeekOf startRaw ≤ 18) :
    1 ≤ startWeekOf startRaw ∧
    startWeekOf startRaw ≤ endWeekOf (startWeekOf startRaw) endRaw current ∧
    endWeekOf (startWeekOf startRaw) endRaw current ≤ 18 ∧
    (weeklyResult startRaw endRaw current stats proj).status = "success" ∧
    (weeklyResult startRaw endRaw current stats proj).start_week
      = startWeekOf startRaw ∧
    (weeklyResult startRaw endRaw current stats proj).end_week
      = endWeekOf (startWeekOf startRaw) endRaw current ∧
    ((weeklyResult startRaw endRaw current stats proj).weeks.length : ℤ)
      = endWeekOf (startWeekOf startRaw) endRaw current
        - startWeekOf startRaw + 1 ∧
    (∀ i (hi : i < (weeklyResult startRaw endRaw current stats proj).weeks.length),
      ((weeklyResult startRaw endRaw current stats proj).weeks.get ⟨i, hi⟩).week_number
          = startWeekOf startRaw + i ∧
      ((weeklyResult startRaw endRaw current stats proj).weeks.get ⟨i, hi⟩).earned_points
          = (stats (startWeekOf startRaw + i)).map round2 ∧
      ((weeklyResult startRaw endRaw current stats proj).weeks.get ⟨i, hi⟩).sleeper_projected_points
          = (proj (startWeekOf startRaw + i)).map round2) := by
  have hs1 : 1 ≤ startWeekOf startRaw := le_max_right _ 1
  have hse : startWeekOf startRaw
      ≤ endWeekOf (startWeekOf startRaw) endRaw current := by
    cases endRaw with
    | some r => exact le_max_left _ _
    | none => exact le_min (le_max_right current _) h18
  have he18 : endWeekOf (startWeekOf startRaw) endRaw current ≤ 18 := by
    cases endRaw with
    | some r => exact max_le h18 (min_le_right r 18)
    | none => exact min_le_right _ 18
  refine ⟨hs1, hse, he18, rfl, rfl, rfl, ?_, ?_⟩
  · show ((buildWeeks _ _ stats proj).length : ℤ) = _
    rw [buildWeeks, List.length_map, List.length_range,
      Int.toNat_of_nonneg (by omega)]
    ring
  · intro i hi
    have hget : (weeklyResult startRaw endRaw current stats proj).weeks.get ⟨i, hi⟩
        = { week_number := startWeekOf startRaw + i,
            earned_points :=
              (stats (startWeekOf startRaw + i)).map round2,
            sleeper_projected_points :=
              (proj (startWeekOf startRaw + i)).map round2 } := by
      simp [weeklyResult, buildWeeks, List.get_eq_getElem]
    rw [hget]
    exact ⟨rfl, rfl, rfl⟩

/-- C10, witness at `start_week = 2`, `end_week = 5`,
`current_week = 9`, with no Sleeper data available. -/
theorem c10_witness :
    1 ≤ startWeekOf (some 2) ∧
    startWeekOf (some 2) ≤ endWeekOf (startWeekOf (some 2)) (some 5) 9 ∧
    endWeekOf (startWeekOf (some 2)) (some 5) 9 ≤ 18 ∧
    (weeklyResult (some 2) (some 5) 9 (fun _ => none) (fun _ => none)).status
      = "success" ∧
    (weeklyResult (some 2) (some 5) 9 (fun _ => none) (fun _ => none)).start_week
      = startWeekOf (some 2) ∧
    (weeklyResult (some 2) (some 5) 9 (fun _ => none) (fun _ => none)).end_week
      = endWeekOf (startWeekOf (some 2)) (some 5) 9 ∧
    ((weeklyResult (some 2) (some 5) 9 (fun _ => none) (fun _ => none)).weeks.length : ℤ)
      = endWeekOf (startWeekOf (some 2)) (some 5) 9 - startWeekOf (some 2) + 1 ∧
    (∀ i (hi : i < (weeklyResult (some 2) (some 5) 9 (fun _ => none) (fun _ => none)).weeks.length),
      ((weeklyResult (some 2) (some 5) 9 (fun _ => none) (fun _ => none)).weeks.get
          ⟨i, hi⟩).week_number = startWeekOf (some 2) + i ∧
      ((weeklyResult (some 2) (some 5) 9 (fun _ => none) (fun _ => none)).weeks.get
          ⟨i, hi⟩).earned_points
        = ((fun (_ : ℤ) => (none : Option ℚ)) (startWeekOf (some 2) + i)).map round2 ∧
      ((weeklyResult (some 2) (some 5) 9 (fun _ => none) (fun _ => none)).weeks.get
          ⟨i, hi⟩).sleeper_projected_points
        = ((fun (_ : ℤ) => (none : Option ℚ)) (startWeekOf (some 2) + i)).map round2) :=
  c10_amended (some 2) (some 5) 9 (fun _ => none) (fun _ => none)
    (by norm_num [startWeekOf, pyOrIntZ, max_def])

end FF
